import Mathlib

/-!
Verification of the analog-sensor driver collection (pH, conductivity, ORP,
TDS aquarium drivers).

Shallow embedding conventions:
* Go `float64` is embedded as `ℚ` (exact arithmetic; all operations used by
  the drivers are `+ - * /`, comparisons and `math.Abs`, so every program
  value is rational, and `NaN`/`Inf` never arise from the finite literals
  involved).
* `time.Time` instants are embedded as `ℚ` (seconds); the Go zero time /
  `IsZero()` test is embedded as `Option ℚ` with `none` for the zero value.
  Durations are seconds (`2 * time.Minute = 120`, `250ms = 1/4`).
* Machine integers (`uint32`, `int32`, `int16`) are embedded as `ℕ`/`ℤ` with
  explicit `% 2^w` reductions where the Go code could wrap.
* I/O against the I2C bus is embedded by passing the bus's responses in as
  explicit data and returning the list (or count) of bus transactions the
  code performs, so that "does not touch the bus" is a provable statement.
-/

/-! ## robotank_ph/driver.go — calibration math -/

namespace RobotankPH

/-- Known calibration buffer truths (`truePH4/7/10` constants). -/
def truePH4 : ℚ := 4
def truePH7 : ℚ := 7
def truePH10 : ℚ := 10

/-- `anchor`: a true buffer pH paired with the observed board reading. -/
structure Anchor where
  truePH : ℚ
  obsPH : ℚ
  deriving DecidableEq, Repr

/-- `mapDebug`: debug record returned by `linearMapDbg`. -/
structure MapDebug where
  den : ℚ
  t : ℚ
  y : ℚ
  deriving DecidableEq, Repr

/-- Calibration-relevant state of the `Driver` struct: the three software
calibration anchors (observed readings); `-1` disables an anchor. -/
structure Driver where
  obs4 : ℚ
  obs7 : ℚ
  obs10 : ℚ
  deriving DecidableEq, Repr

/-- `clampPH(v, lo, hi)`: clamp with a flag reporting whether clamping
happened. -/
def clampPH (v lo hi : ℚ) : ℚ × Bool :=
  if v < lo then (lo, true)
  else if v > hi then (hi, true)
  else (v, false)

/-- `linearMapDbg(x, x1, x2, y1, y2)` maps `x` from `[x1..x2]` to `[y1..y2]`.
If `|x2-x1| < 1e-9` (degenerate), returns `y1` with `t = 0` and no division. -/
def linearMapDbg (x x1 x2 y1 y2 : ℚ) : MapDebug :=
  let den := x2 - x1
  if |den| < 1 / 1000000000 then ⟨den, 0, y1⟩
  else
    let t := (x - x1) / den
    ⟨den, t, y1 + t * (y2 - y1)⟩

/-- `enabledAnchors`: the enabled `(truePH, obsPH)` pairs, sorted by `truePH`
ascending.  The Go code builds the list in the order 4, 7, 10 and then sorts
by `truePH`; since the build order is already ascending in `truePH`, the sort
is the identity and the list is exactly this concatenation. -/
def Driver.enabledAnchors (d : Driver) : List Anchor :=
  (if d.obs4 ≠ -1 then [⟨truePH4, d.obs4⟩] else []) ++
  (if d.obs7 ≠ -1 then [⟨truePH7, d.obs7⟩] else []) ++
  (if d.obs10 ≠ -1 then [⟨truePH10, d.obs10⟩] else [])

/-- The body of `applyCalibration` after the raw safety clamp, keyed (as in
the Go code) on the number of enabled anchors: 0 anchors — identity;
1 anchor — offset; 2 anchors — linear map; 3 anchors — piecewise around the
middle anchor, the segment decided by `raw <= as[1].obsPH`. -/
def calibrateWith (as : List Anchor) (raw : ℚ) : ℚ :=
  match as with
  | [] => raw
  | [a] => (clampPH (raw + (a.truePH - a.obsPH)) 0 14).1
  | [a, b] => (clampPH (linearMapDbg raw a.obsPH b.obsPH a.truePH b.truePH).y 0 14).1
  | a0 :: a1 :: a2 :: _ =>
    if raw ≤ a1.obsPH then
      (clampPH (linearMapDbg raw a0.obsPH a1.obsPH a0.truePH a1.truePH).y 0 14).1
    else
      (clampPH (linearMapDbg raw a1.obsPH a2.obsPH a1.truePH a2.truePH).y 0 14).1

/-- The pre-calibration safety clamp on the raw reading:
`if raw < -1 { raw = -1 }; if raw > 15 { raw = 15 }`. -/
def preClampRaw (raw : ℚ) : ℚ :=
  let r1 := if raw < -1 then -1 else raw
  if r1 > 15 then 15 else r1

/-- `applyCalibration` converts a raw pH from the PCB into a corrected pH. -/
def Driver.applyCalibration (d : Driver) (raw : ℚ) : ℚ :=
  calibrateWith d.enabledAnchors (preClampRaw raw)

end RobotankPH

/-! ## robotank_conductivity/driver.go — conversion and temperature state -/

namespace RobotankCond

/-- Fixed constant `fixedRefUS = 53000.0` (reference full scale, µS/cm). -/
def fixedRefUS : ℚ := 53000

/-- Staleness threshold `tempStaleAfter = 2 * time.Minute`, in seconds. -/
def tempStaleAfter : ℚ := 120

/-- State of the `RoboTankConductivity` struct relevant to conversion and
temperature compensation.  `tempUpdatedAt = none` embeds the Go zero
`time.Time` (`IsZero()`). -/
structure Driver where
  absDFresh : ℚ
  absDStd : ℚ
  refUS : ℚ
  alphaPerC : ℚ
  refTempC : ℚ
  tempC : ℚ
  tempUpdatedAt : Option ℚ
  tempValid : Bool
  deriving DecidableEq, Repr

/-- `usFromAbsD(ad)`: map the absolute differential reading to conductivity.
Returns a configuration error when an anchor is unset (`<= 0`) or the anchors
coincide; otherwise `clamp((absDFresh-ad)/(absDFresh-absDStd), 0, 1.2) * refUS`
written as the two sequential clamping ifs of the source. -/
def Driver.usFromAbsD (d : Driver) (ad : ℚ) : Except String ℚ :=
  if d.absDFresh ≤ 0 ∨ d.absDStd ≤ 0 then
    .error "missing calibration (AbsD_RODI and AbsD_Std must be set)"
  else if d.absDFresh = d.absDStd then
    .error "invalid calibration (AbsD_RODI == AbsD_Std)"
  else
    let x := (d.absDFresh - ad) / (d.absDFresh - d.absDStd)
    let x := if x < 0 then 0 else x
    let x := if x > 6 / 5 then 6 / 5 else x
    .ok (x * d.refUS)

/-- `SetTemperatureC(tempC)`: records the injection time; a negative value is
the "unknown" sentinel — temperature is marked invalid and the stored
temperature is set to the reference temperature. -/
def Driver.setTemperatureC (d : Driver) (now tempC : ℚ) : Driver :=
  if tempC < 0 then
    { d with tempUpdatedAt := some now, tempValid := false, tempC := d.refTempC }
  else
    { d with tempUpdatedAt := some now, tempValid := true, tempC := tempC }

/-- `tempCompToRef(us)`: convert measured µS at the current temperature to µS
at `refTempC`.  No-op when the temperature is invalid; when the temperature
state is valid but the injection time is the zero time, or the injection is
older than `tempStaleAfter`, the state is downgraded (`tempValid := false`,
`tempC := refTempC`) and the input passes through unchanged.  Otherwise the
linear model divides by `1 + alpha*(tempC - refTempC)`, floor-clamped at 0.1.
Returns the value together with the (possibly downgraded) driver state. -/
def Driver.tempCompToRef (d : Driver) (now us : ℚ) : ℚ × Driver :=
  if ¬d.tempValid then (us, d)
  else
    match d.tempUpdatedAt with
    | none => (us, { d with tempValid := false, tempC := d.refTempC })
    | some t =>
      if now - t > tempStaleAfter then
        (us, { d with tempValid := false, tempC := d.refTempC })
      else
        let den := 1 + d.alphaPerC * (d.tempC - d.refTempC)
        let den := if den ≤ 1 / 10 then 1 / 10 else den
        (us / den, d)

/-- Initial temperature state as built by the factory (`NewDriver`): no
injection has occurred, `tempValid` is the Go zero value `false`, and
`tempC` is initialized to `refTempC`. -/
def initialDriver (absDFresh absDStd refTempC : ℚ) : Driver :=
  { absDFresh := absDFresh
    absDStd := absDStd
    refUS := fixedRefUS
    alphaPerC := 15 / 10000
    refTempC := refTempC
    tempC := refTempC
    tempUpdatedAt := none
    tempValid := false }

end RobotankCond

/-! ## aliexpress_ph driver (src/unnamed/part_008) — Nernst calibration and
temperature handling -/

namespace AliPH

/-- `idealSlope25C = 59.16` (mV per pH). -/
def idealSlope25C : ℚ := 5916 / 100

/-- `refTempK25C = 298.15` (25C in Kelvin). -/
def refTempK25C : ℚ := 29815 / 100

/-- Calibration/temperature state of the `AliExpressPH` struct. -/
structure Driver where
  vrefV : ℚ
  ph7mV : ℚ
  ph4mV : ℚ
  ph10mV : ℚ
  slopeOverride : ℚ
  doTempComp : Bool
  refTempC : ℚ
  tempC : ℚ
  tempUpdatedAt : Option ℚ
  deriving DecidableEq, Repr

/-- `SetTemperatureC(tempC)`: stores the injected temperature verbatim and
timestamps it.  (No sentinel handling and no validity flag in this driver.) -/
def Driver.setTemperatureC (d : Driver) (now tempC : ℚ) : Driver :=
  { d with tempC := tempC, tempUpdatedAt := some now }

/-- `slope25C`: slope at 25C (mV per pH), preferring the override, then the
PH4/PH7 anchors, then PH10/PH7, then the ideal fallback. -/
def Driver.slope25C (d : Driver) : ℚ :=
  if d.slopeOverride ≠ 0 then d.slopeOverride
  else if d.ph4mV ≠ 0 then (d.ph4mV - d.ph7mV) / (4 - 7)
  else if d.ph10mV ≠ 0 then (d.ph10mV - d.ph7mV) / (10 - 7)
  else -idealSlope25C

/-- `slopeAtTemp(slope25)`: Nernst scaling by absolute temperature when
`doTempComp` is enabled; returns the slope, whether compensation was applied,
and the reason string.  The source explicitly allows operation on a stale
temperature (only Snapshot notes warn). -/
def Driver.slopeAtTemp (d : Driver) (slope25 : ℚ) : ℚ × Bool × String :=
  if ¬d.doTempComp then (slope25, false, "disabled by configuration")
  else
    let tk := d.tempC + 27315 / 100
    if tk ≤ 0 then (slope25, false, "invalid temperature; using 25C slope")
    else (slope25 * (tk / refTempK25C), true, "")

/-- `mvToPH(mv)`: observed electrode mV to pH, `pH = 7 + (mv - mV7)/slope`,
with the zero-slope guard falling back to the ideal slope.  (The Go guard also
covers NaN/Inf, which cannot arise in the rational embedding.) -/
def Driver.mvToPH (d : Driver) (mv : ℚ) : ℚ × ℚ :=
  let s25 := d.slope25C
  let slope := (d.slopeAtTemp s25).1
  let slope := if slope = 0 then -idealSlope25C else slope
  (7 + (mv - d.ph7mV) / slope, slope)

/-- The soft clamp applied by `phPin.Value` after `mvToPH`
(`if ph < 0 { ph = 0 }; if ph > 14 { ph = 14 }`).  `phPin.Snapshot` does not
apply it. -/
def valueClamp (ph : ℚ) : ℚ :=
  let p1 := if ph < 0 then 0 else ph
  if p1 > 14 then 14 else p1

/-- Reported value of `phPin.Value`/`phPin.Measure` on a successful
acquisition of observed millivolts `mv`. -/
def Driver.pinValue (d : Driver) (mv : ℚ) : ℚ :=
  valueClamp (d.mvToPH mv).1

/-- Value field of the `hal.Snapshot` returned by `phPin.Snapshot` on a
successful acquisition: the unclamped `mvToPH` result. -/
def Driver.snapshotValue (d : Driver) (mv : ℚ) : ℚ :=
  (d.mvToPH mv).1

end AliPH

/-! ## aliexpress_orp/driver.go (identical code in src/unnamed/part_008) —
ADC decode, cached acquisition, ORP pin -/

namespace AliADC

/-- `adcOffsetBinaryMid = 0x20000000` (mid-scale, 0 V). -/
def adcOffsetBinaryMid : ℕ := 0x20000000

/-- `adcScale = 536870912.0` (2^29). -/
def adcScale : ℚ := 536870912

/-- `cacheMaxAge = 250 * time.Millisecond`, in seconds. -/
def cacheMaxAge : ℚ := 1 / 4

/-- `adcI2C24ToCode(b)`: concatenate the first three sample bytes into the
high bits of a `uint32`, shift right by 2 and mask to 30 bits.  The `uint32`
arithmetic is embedded as `ℕ` with an explicit `% 2^32`; the final Go
`int32(u32)` cast is the identity because the masked value is below `2^30`.
The Go function indexes `b[0] b[1] b[2]` of the payload slice (only ever
called with a 3-byte payload). -/
def adcI2C24ToCode (b : List ℕ) : ℕ :=
  let u32 := (b.getD 0 0 <<< 24 ||| b.getD 1 0 <<< 16 ||| b.getD 2 0 <<< 8) % 2 ^ 32
  (u32 >>> 2) &&& 0x3FFFFFFF

/-- `adcCodeToVolts(code, vref)`: subtract the mid-scale constant and scale
by `vref / 2^29`. -/
def adcCodeToVolts (code : ℕ) (vref : ℚ) : ℚ :=
  (((code : ℤ) - (adcOffsetBinaryMid : ℤ) : ℤ) : ℚ) / adcScale * vref

/-- Result of one `bus.ReadBytes(addr, 3)` attempt, supplied by the
environment: either a bus error (with its transient classification per
`isTransientI2C`) or a payload. -/
inductive BusAttempt where
  | err (transient : Bool)
  | ok (payload : List ℕ)
  deriving DecidableEq, Repr

/-- Cache/timing state of the driver (`lastXferAt`, `lastSampleAt`, `lastMV`,
`lastRaw`, `lastCode`).  Zero `time.Time` values are `none`. -/
structure CacheState where
  lastXferAt : Option ℚ
  lastSampleAt : Option ℚ
  lastMV : ℚ
  lastRaw : List ℕ
  lastCode : ℕ
  deriving DecidableEq, Repr

/-- A successful acquisition: observed millivolts, raw payload, ADC code. -/
structure Sample where
  mv : ℚ
  raw : List ℕ
  code : ℕ
  deriving DecidableEq, Repr

/-- The second (final) loop iteration of `readObservedMV`: one bus attempt;
every failure is now surfaced (no further retry). -/
def readAttempt2 (vref : ℚ) (now : ℚ) (s : CacheState) (att : BusAttempt) :
    Except String Sample × CacheState :=
  let s := { s with lastXferAt := some now }
  match att with
  | .err _ => (.error "i2c read error", s)
  | .ok payload =>
    if payload.length ≠ 3 then (.error "short i2c read", s)
    else if payload = [0xFF, 0xFF, 0xFF] then (.error "invalid payload: all 0xFF", s)
    else
      let code := adcI2C24ToCode payload
      let mv := adcCodeToVolts code vref * 1000
      (.ok ⟨mv, payload, code⟩,
        { s with lastSampleAt := some now, lastMV := mv, lastRaw := payload,
                 lastCode := code })

/-- `readObservedMV`: serve from the cache when the last sample is younger
than `cacheMaxAge` (no bus transaction); otherwise attempt a bus read with
one retry on a transient error, a short payload, or an all-`0xFF` payload.
The environment supplies the outcome of each potential bus attempt; the last
component counts the `ReadBytes` bus transactions actually issued. -/
def readObservedMV (vref : ℚ) (s : CacheState) (now : ℚ)
    (att1 att2 : BusAttempt) : Except String Sample × CacheState × ℕ :=
  match s.lastSampleAt with
  | some t =>
    if now - t < cacheMaxAge then
      (.ok ⟨s.lastMV, s.lastRaw, s.lastCode⟩, s, 0)
    else
      firstAttempt vref s now att1 att2
  | none => firstAttempt vref s now att1 att2
where
  /-- The first loop iteration: retry (second attempt) on a transient bus
  error, a short payload, or an all-`0xFF` payload; return immediately on a
  non-transient bus error or on success. -/
  firstAttempt (vref : ℚ) (s : CacheState) (now : ℚ) (att1 att2 : BusAttempt) :
      Except String Sample × CacheState × ℕ :=
    let s1 := { s with lastXferAt := some now }
    match att1 with
    | .err transient =>
      if transient then
        let (r, s2) := readAttempt2 vref now s1 att2
        (r, s2, 2)
      else (.error "i2c read error", s1, 1)
    | .ok payload =>
      if payload.length ≠ 3 then
        let (r, s2) := readAttempt2 vref now s1 att2
        (r, s2, 2)
      else if payload = [0xFF, 0xFF, 0xFF] then
        let (r, s2) := readAttempt2 vref now s1 att2
        (r, s2, 2)
      else
        let code := adcI2C24ToCode payload
        let mv := adcCodeToVolts code vref * 1000
        (.ok ⟨mv, payload, code⟩,
          { s1 with lastSampleAt := some now, lastMV := mv, lastRaw := payload,
                    lastCode := code }, 1)

end AliADC

namespace AliORP

open AliADC

/-- State of the `AliExpressORP` struct: Vref, the software calibration
offset, and the cache/timing fields. -/
structure Driver where
  vrefV : ℚ
  offset : ℚ
  cache : CacheState
  deriving DecidableEq, Repr

/-- `orpPin.SetTemperatureC(tempC)`: the body is empty — the ORP driver
deliberately ignores temperature injection, so the state is untouched. -/
def Driver.setTemperatureC (d : Driver) (_tempC : ℚ) : Driver := d

/-- `orpPin.Value` (and `Measure`, which delegates to it): on a successful
acquisition the reported value is `observed mV + offset`; errors propagate.
Returns the value or error, the updated driver, and the bus transaction
count. -/
def Driver.pinValue (d : Driver) (now : ℚ) (att1 att2 : BusAttempt) :
    Except String ℚ × Driver × ℕ :=
  match readObservedMV d.vrefV d.cache now att1 att2 with
  | (.ok sample, s, n) => (.ok (sample.mv + d.offset), { d with cache := s }, n)
  | (.error e, s, n) => (.error e, { d with cache := s }, n)

end AliORP

/-! ## ads1115tds (src/unnamed/part_003, src/ads1115tds/driver.go) —
single-shot conversion with ready-bit polling -/

namespace ADS1115

/-- Register addresses `regConversion = 0x00`, `regConfig = 0x01`. -/
def regConversion : ℕ := 0x00
def regConfig : ℕ := 0x01

/-- `configOsSingle = 0x8000`: the OS ("ready") bit of the config register. -/
def configOsSingle : ℕ := 0x8000

/-- A bus transaction performed by `performConversion`. -/
inductive BusOp where
  | writeReg (reg : ℕ) (bytes : List ℕ)
  | readReg (reg : ℕ)
  deriving DecidableEq, Repr

/-- One iteration of the poll loop as seen from the bus: the 16-bit config
word returned by `ReadFromReg(regConfig)` and the `time.Now()` value sampled
right after the read (the source calls `time.Now()` again for the deadline
check microseconds later; both are embedded as the same instant).  Bus read
errors abort the acquisition independently of the timeout logic and are not
modelled here. -/
structure PollEvent where
  cfg : ℕ
  now : ℚ
  deriving DecidableEq, Repr

/-- The `for` loop of `performConversion`: read the config register; break
when the OS bit is set; fail with the timeout error when the deadline has
passed; otherwise sleep `convPollWait` and poll again.  The environment
supplies the successive poll results; in the source the list is never
exhausted because each iteration strictly advances time, so running out of
events is a modelling artefact reported as a distinct error. -/
def pollLoop (deadline : ℚ) : List PollEvent → Except String Unit × List BusOp
  | [] => (.error "poll responses exhausted", [])
  | e :: rest =>
    if e.cfg &&& configOsSingle ≠ 0 then (.ok (), [.readReg regConfig])
    else if e.now > deadline then
      (.error "ads1115: conversion timeout", [.readReg regConfig])
    else
      let (r, ops) := pollLoop deadline rest
      (r, .readReg regConfig :: ops)

/-- Big-endian reconstruction `int16(uint16(b0)<<8 | uint16(b1))` of the
conversion register, as `ℤ` with an explicit two's-complement reduction. -/
def toInt16 (b0 b1 : ℕ) : ℤ :=
  let u : ℕ := (b0 <<< 8 ||| b1) % 2 ^ 16
  if u < 2 ^ 15 then (u : ℤ) else (u : ℤ) - 2 ^ 16

/-- `performConversion`: write the 16-bit config word (starting the
conversion), poll the config register until the OS bit is set or the deadline
passes, then — only on success — read the conversion register and decode it
as a big-endian `int16`.  A timeout is returned as an error and is not
retried.  Returns the result together with the full list of bus transactions
performed. -/
def performConversion (config : ℕ) (deadline : ℚ) (events : List PollEvent)
    (convB0 convB1 : ℕ) : Except String ℤ × List BusOp :=
  let wr : BusOp := .writeReg regConfig [config / 256 % 256, config % 256]
  match pollLoop deadline events with
  | (.ok _, ops) => (.ok (toInt16 convB0 convB1), wr :: (ops ++ [.readReg regConversion]))
  | (.error e, ops) => (.error e, wr :: ops)

/-- True for the bus operation that starts a conversion (a write to the
config register). -/
def BusOp.isConfigWrite : BusOp → Bool
  | .writeReg reg _ => reg == regConfig
  | .readReg _ => false

end ADS1115

/-! ## Theorems -/

/-- Claim C6: for 2-point calibration anchors with equal observed values
(`x1 == x2`), `linearMapDbg` returns the lower true value `y1` for every
input, with the zero-slope condition recorded in the debug record
(`den = 0`, `t = 0`); the division branch is never taken, so no division by
zero occurs. -/
theorem claim_C6_degenerate_two_point (x x1 x2 y1 y2 : ℚ) (h : x1 = x2) :
    RobotankPH.linearMapDbg x x1 x2 y1 y2 = ⟨0, 0, y1⟩ := by
  subst h
  simp [RobotankPH.linearMapDbg]

/-- Witness for C6 at the concrete degenerate anchors `(5, 4)` and `(5, 7)`
with input 3. -/
theorem claim_C6_degenerate_two_point_witness :
    RobotankPH.linearMapDbg 3 5 5 4 7 = ⟨0, 0, 4⟩ :=
  claim_C6_degenerate_two_point 3 5 5 4 7 rfl

/-- Claim C8: for every 3-byte ADC sample, the decoded code equals
`((b0<<24 | b1<<16 | b2<<8) >> 2) & 0x3FFFFFFF` (the `uint32` arithmetic
cannot wrap for bytes), the voltage equals `(code - 0x20000000) / 2^29 * Vref`,
decoding is deterministic, and the mid-scale code `0x20000000` decodes to
exactly 0 V. -/
theorem claim_C8_adc_decode (b0 b1 b2 : ℕ) (h0 : b0 < 256) (h1 : b1 < 256)
    (h2 : b2 < 256) (vref : ℚ) :
    AliADC.adcI2C24ToCode [b0, b1, b2] =
      ((b0 <<< 24 ||| b1 <<< 16 ||| b2 <<< 8) >>> 2) &&& 0x3FFFFFFF
    ∧ AliADC.adcCodeToVolts (AliADC.adcI2C24ToCode [b0, b1, b2]) vref =
        (((AliADC.adcI2C24ToCode [b0, b1, b2] : ℤ) - 0x20000000 : ℤ) : ℚ) / 2 ^ 29 * vref
    ∧ AliADC.adcI2C24ToCode [b0, b1, b2] = AliADC.adcI2C24ToCode [b0, b1, b2]
    ∧ AliADC.adcCodeToVolts 0x20000000 vref = 0 := by
  refine ⟨?_, ?_, rfl, ?_⟩
  · have hb0 : b0 <<< 24 < 2 ^ 32 := by
      rw [Nat.shiftLeft_eq]
      omega
    have hb1 : b1 <<< 16 < 2 ^ 32 := by
      rw [Nat.shiftLeft_eq]
      omega
    have hb2 : b2 <<< 8 < 2 ^ 32 := by
      rw [Nat.shiftLeft_eq]
      omega
    have hor : (b0 <<< 24 ||| b1 <<< 16 ||| b2 <<< 8) < 2 ^ 32 :=
      Nat.or_lt_two_pow (Nat.or_lt_two_pow hb0 hb1) hb2
    unfold AliADC.adcI2C24ToCode
    simp only [List.getD, List.get?_cons_zero, List.get?_cons_succ,
      Option.getD_some]
    rw [Nat.mod_eq_of_lt hor]
  · unfold AliADC.adcCodeToVolts AliADC.adcScale AliADC.adcOffsetBinaryMid
    norm_num
  · unfold AliADC.adcCodeToVolts AliADC.adcScale AliADC.adcOffsetBinaryMid
    norm_num

/-- Witness for C8 at the mid-scale sample bytes `0x80 0x00 0x00` with
`Vref = 5/2`. -/
theorem claim_C8_adc_decode_witness :
    AliADC.adcI2C24ToCode [128, 0, 0] =
      ((128 <<< 24 ||| 0 <<< 16 ||| 0 <<< 8) >>> 2) &&& 0x3FFFFFFF
    ∧ AliADC.adcCodeToVolts (AliADC.adcI2C24ToCode [128, 0, 0]) (5 / 2) =
        (((AliADC.adcI2C24ToCode [128, 0, 0] : ℤ) - 0x20000000 : ℤ) : ℚ) / 2 ^ 29 * (5 / 2)
    ∧ AliADC.adcI2C24ToCode [128, 0, 0] = AliADC.adcI2C24ToCode [128, 0, 0]
    ∧ AliADC.adcCodeToVolts 0x20000000 (5 / 2) = 0 :=
  claim_C8_adc_decode 128 0 0 (by decide) (by decide) (by decide) (5 / 2)

/-- Claim C2: with both anchors configured (`absDFresh > 0`, `absDStd > 0`,
`absDFresh ≠ absDStd`) and the fixed reference full scale 53000µS, the
conductivity output equals
`clamp((absDFresh - ad)/(absDFresh - absDStd), 0, 1.2) * 53000`; an input
equal to the standard anchor yields exactly 53000µS; no output exceeds
63600µS; if either anchor is unset (`<= 0`) or the anchors are equal, a
configuration error is returned instead of a value. -/
theorem claim_C2_conductivity_mapping (d : RobotankCond.Driver) (ad : ℚ)
    (hf : 0 < d.absDFresh) (hs : 0 < d.absDStd) (hne : d.absDFresh ≠ d.absDStd)
    (hus : d.refUS = 53000) :
    d.usFromAbsD ad =
      .ok (min (max ((d.absDFresh - ad) / (d.absDFresh - d.absDStd)) 0) (6 / 5) * 53000)
    ∧ d.usFromAbsD d.absDStd = .ok 53000
    ∧ (∀ u, d.usFromAbsD ad = .ok u → u ≤ 63600)
    ∧ (∀ (d' : RobotankCond.Driver) (ad' : ℚ),
        d'.absDFresh ≤ 0 ∨ d'.absDStd ≤ 0 ∨ d'.absDFresh = d'.absDStd →
        ∃ e, d'.usFromAbsD ad' = .error e) := by
  have hguard : ¬(d.absDFresh ≤ 0 ∨ d.absDStd ≤ 0) := by
    push_neg
    exact ⟨hf, hs⟩
  have key : ∀ a : ℚ, d.usFromAbsD a =
      .ok (min (max ((d.absDFresh - a) / (d.absDFresh - d.absDStd)) 0) (6 / 5) * 53000) := by
    intro a
    unfold RobotankCond.Driver.usFromAbsD
    rw [if_neg hguard, if_neg hne, hus]
    simp only []
    split_ifs with h1 h2 h2
    · exact absurd h2 (by norm_num)
    · rw [max_eq_right h1.le, min_eq_left (by norm_num : (0 : ℚ) ≤ 6 / 5)]
    · rw [max_eq_left (not_lt.mp h1), min_eq_right (le_of_lt h2)]
    · rw [max_eq_left (not_lt.mp h1), min_eq_left (not_lt.mp h2)]
  refine ⟨key ad, ?_, ?_, ?_⟩
  · rw [key d.absDStd, div_self (sub_ne_zero.mpr hne)]
    norm_num
  · intro u hu
    rw [key ad] at hu
    have : u = min (max ((d.absDFresh - ad) / (d.absDFresh - d.absDStd)) 0) (6 / 5) * 53000 := by
      exact (Except.ok.injEq _ _).mp hu.symm
    rw [this]
    calc min (max ((d.absDFresh - ad) / (d.absDFresh - d.absDStd)) 0) (6 / 5) * 53000
        ≤ (6 / 5) * 53000 := by
          exact mul_le_mul_of_nonneg_right (min_le_right _ _) (by norm_num)
      _ = 63600 := by norm_num
  · intro d' ad' h
    unfold RobotankCond.Driver.usFromAbsD
    by_cases hg : d'.absDFresh ≤ 0 ∨ d'.absDStd ≤ 0
    · rw [if_pos hg]
      exact ⟨_, rfl⟩
    · have heq : d'.absDFresh = d'.absDStd := by
        rcases h with h | h | h
        · exact absurd (Or.inl h) hg
        · exact absurd (Or.inr h) hg
        · exact h
      rw [if_neg hg, if_pos heq]
      exact ⟨_, rfl⟩

/-- Witness for C2 at the spec's end-to-end scenario: fresh anchor 1000mV,
standard anchor 20mV, raw differential 20mV yields exactly 53000µS. -/
theorem claim_C2_conductivity_mapping_witness :
    (RobotankCond.initialDriver 1000 20 25).usFromAbsD
      (RobotankCond.initialDriver 1000 20 25).absDStd = .ok 53000 :=
  (claim_C2_conductivity_mapping (RobotankCond.initialDriver 1000 20 25) 20
    (by norm_num [RobotankCond.initialDriver]) (by norm_num [RobotankCond.initialDriver])
    (by norm_num [RobotankCond.initialDriver]) (by
      norm_num [RobotankCond.initialDriver, RobotankCond.fixedRefUS])).2.1


namespace AliADC

/-- On a fresh cached sample, `readObservedMV` returns the cached triple in
full, leaves the state untouched and issues zero bus transactions. -/
lemma readObservedMV_cache_hit (vref : ℚ) (s : CacheState) (now t : ℚ)
    (a1 a2 : BusAttempt) (h : s.lastSampleAt = some t)
    (hfresh : now - t < cacheMaxAge) :
    readObservedMV vref s now a1 a2 = (.ok ⟨s.lastMV, s.lastRaw, s.lastCode⟩, s, 0) := by
  unfold readObservedMV
  rw [h]
  simp [hfresh]

/-- A successful `readAttempt2` stamps the cache with the returned sample. -/
lemma readAttempt2_success (vref now : ℚ) (s : CacheState) (att : BusAttempt)
    (sample : Sample) (s₂ : CacheState)
    (h : readAttempt2 vref now s att = (.ok sample, s₂)) :
    s₂.lastSampleAt = some now ∧ s₂.lastMV = sample.mv ∧
      s₂.lastRaw = sample.raw ∧ s₂.lastCode = sample.code := by
  cases att with
  | err t => simp [readAttempt2] at h
  | ok payload =>
    rw [readAttempt2] at h
    split_ifs at h with h1 h2
    · simp at h
    · simp at h
    · simp only [Prod.mk.injEq] at h
      obtain ⟨hA, hB⟩ := h
      have hs := Except.ok.inj hA
      subst hs
      rw [← hB]
      exact ⟨rfl, rfl, rfl, rfl⟩

/-- A successful first/second attempt stamps the cache with the returned
sample. -/
lemma firstAttempt_success (vref : ℚ) (s : CacheState) (now : ℚ)
    (a1 a2 : BusAttempt) (sample : Sample) (s₂ : CacheState) (n : ℕ)
    (h : readObservedMV.firstAttempt vref s now a1 a2 = (.ok sample, s₂, n)) :
    s₂.lastSampleAt = some now ∧ s₂.lastMV = sample.mv ∧
      s₂.lastRaw = sample.raw ∧ s₂.lastCode = sample.code := by
  cases a1 with
  | err transient =>
    cases transient with
    | false => simp [readObservedMV.firstAttempt] at h
    | true =>
      rw [readObservedMV.firstAttempt.eq_def] at h
      simp only [] at h
      simp only [if_true] at h
      simp only [Prod.mk.injEq] at h
      obtain ⟨h1, h2, h3⟩ := h
      exact readAttempt2_success _ _ _ _ _ _ (Prod.ext h1 h2)
  | ok payload =>
    rw [readObservedMV.firstAttempt.eq_def] at h
    simp only [] at h
    split_ifs at h with h1 h2
    · simp only [Prod.mk.injEq] at h
      obtain ⟨hA, hB, hC⟩ := h
      exact readAttempt2_success _ _ _ _ _ _ (Prod.ext hA hB)
    · simp only [Prod.mk.injEq] at h
      obtain ⟨hA, hB, hC⟩ := h
      exact readAttempt2_success _ _ _ _ _ _ (Prod.ext hA hB)
    · simp only [Prod.mk.injEq] at h
      obtain ⟨hA, hB, hC⟩ := h
      have hs := Except.ok.inj hA
      subst hs
      rw [← hB]
      exact ⟨rfl, rfl, rfl, rfl⟩

/-- A first/second attempt always issues at least one bus transaction. -/
lemma firstAttempt_touches_bus (vref : ℚ) (s : CacheState) (now : ℚ)
    (a1 a2 : BusAttempt) :
    1 ≤ (readObservedMV.firstAttempt vref s now a1 a2).2.2 := by
  rw [readObservedMV.firstAttempt.eq_def]
  cases a1 with
  | err transient => cases transient <;> simp
  | ok payload =>
    simp only []
    split_ifs <;> simp

end AliADC

/-- Claim C9: while a cached sample is younger than the 250ms cache window,
an acquisition returns the identical cached value, raw bytes and code with
zero bus transactions and unchanged state; a request with no cached sample or
a sample at least as old as the window issues at least one bus transaction;
and after any successful acquisition, a subsequent acquisition within the
window of the stored timestamp returns the identical sample without touching
the bus. -/
theorem claim_C9_cache_window (vref : ℚ) (s : AliADC.CacheState) (now t : ℚ)
    (a1 a2 : AliADC.BusAttempt) :
    (s.lastSampleAt = some t → now - t < AliADC.cacheMaxAge →
      AliADC.readObservedMV vref s now a1 a2 =
        (.ok ⟨s.lastMV, s.lastRaw, s.lastCode⟩, s, 0))
    ∧ (s.lastSampleAt = none ∨ (s.lastSampleAt = some t ∧ AliADC.cacheMaxAge ≤ now - t) →
      1 ≤ (AliADC.readObservedMV vref s now a1 a2).2.2)
    ∧ (∀ sample s' n, AliADC.readObservedMV vref s now a1 a2 = (.ok sample, s', n) →
        ∀ now' b1 b2, (∀ u, s'.lastSampleAt = some u → now' - u < AliADC.cacheMaxAge) →
          AliADC.readObservedMV vref s' now' b1 b2 = (.ok sample, s', 0)) := by
  refine ⟨?_, ?_, ?_⟩
  · intro h hfresh
    exact AliADC.readObservedMV_cache_hit vref s now t a1 a2 h hfresh
  · intro hmiss
    rcases hmiss with hnone | ⟨hsome, hold⟩
    · unfold AliADC.readObservedMV
      rw [hnone]
      exact AliADC.firstAttempt_touches_bus vref s now a1 a2
    · unfold AliADC.readObservedMV
      rw [hsome]
      simp only []
      rw [if_neg (not_lt.mpr hold)]
      exact AliADC.firstAttempt_touches_bus vref s now a1 a2
  · intro sample s' n h now' b1 b2 hfresh
    have hfields : s'.lastMV = sample.mv ∧ s'.lastRaw = sample.raw ∧
        s'.lastCode = sample.code ∧ ∃ u, s'.lastSampleAt = some u := by
      unfold AliADC.readObservedMV at h
      cases hs : s.lastSampleAt with
      | none =>
        rw [hs] at h
        obtain ⟨h1, h2, h3, h4⟩ := AliADC.firstAttempt_success vref s now a1 a2 sample s' n h
        exact ⟨h2, h3, h4, now, h1⟩
      | some u0 =>
        rw [hs] at h
        simp only [] at h
        by_cases hfr : now - u0 < AliADC.cacheMaxAge
        · rw [if_pos hfr] at h
          simp only [Prod.mk.injEq] at h
          obtain ⟨h1, h2, h3⟩ := h
          have hsamp := Except.ok.inj h1
          subst h2
          rw [← hsamp]
          exact ⟨rfl, rfl, rfl, u0, hs⟩
        · rw [if_neg hfr] at h
          obtain ⟨h1, h2, h3, h4⟩ := AliADC.firstAttempt_success vref s now a1 a2 sample s' n h
          exact ⟨h2, h3, h4, now, h1⟩
    obtain ⟨hmv, hraw, hcode, u, hu⟩ := hfields
    have := AliADC.readObservedMV_cache_hit vref s' now' u b1 b2 hu (hfresh u hu)
    rw [this, hmv, hraw, hcode]

/-- Witness for C9 on a concrete fresh cache: a sample stored at t = 0 is
served verbatim at t = 1/10 s with no bus transaction. -/
theorem claim_C9_cache_window_witness :
    AliADC.readObservedMV 1 ⟨none, some 0, 5, [1, 2, 3], 9⟩ (1 / 10)
        (.err false) (.err false) =
      (.ok ⟨5, [1, 2, 3], 9⟩, ⟨none, some 0, 5, [1, 2, 3], 9⟩, 0) :=
  (claim_C9_cache_window 1 ⟨none, some 0, 5, [1, 2, 3], 9⟩ (1 / 10) 0
    (.err false) (.err false)).1 rfl (by norm_num [AliADC.cacheMaxAge])

/-- Claim C10: `orpPin.SetTemperatureC` leaves the entire ORP driver state
unchanged (deliberate no-op, so the reported value is independent of any
injected temperature), and every successful acquisition reports the observed
electrode millivolts plus the configured offset, with no temperature term. -/
theorem claim_C10_orp_temperature_noop (d : AliORP.Driver) (tempC now : ℚ)
    (a1 a2 : AliADC.BusAttempt) :
    d.setTemperatureC tempC = d
    ∧ (d.setTemperatureC tempC).pinValue now a1 a2 = d.pinValue now a1 a2
    ∧ (∀ sample s n,
        AliADC.readObservedMV d.vrefV d.cache now a1 a2 = (.ok sample, s, n) →
        d.pinValue now a1 a2 = (.ok (sample.mv + d.offset), { d with cache := s }, n)) := by
  refine ⟨rfl, rfl, ?_⟩
  intro sample s n h
  unfold AliORP.Driver.pinValue
  rw [h]

/-- Witness for C10 on a concrete driver with a fresh cached sample: the
reported value is the cached 5 mV plus the configured 2 mV offset. -/
theorem claim_C10_orp_temperature_noop_witness :
    AliORP.Driver.pinValue ⟨1, 2, ⟨none, some 0, 5, [1, 2, 3], 9⟩⟩ (1 / 10)
        (.err false) (.err false) =
      (.ok (5 + 2), ⟨1, 2, ⟨none, some 0, 5, [1, 2, 3], 9⟩⟩, 0) := by
  have hread : AliADC.readObservedMV 1 ⟨none, some 0, 5, [1, 2, 3], 9⟩ (1 / 10)
      (.err false) (.err false) =
      (.ok ⟨5, [1, 2, 3], 9⟩, ⟨none, some 0, 5, [1, 2, 3], 9⟩, 0) :=
    AliADC.readObservedMV_cache_hit 1 ⟨none, some 0, 5, [1, 2, 3], 9⟩ (1 / 10) 0
      (.err false) (.err false) rfl (by norm_num [AliADC.cacheMaxAge])
  exact (claim_C10_orp_temperature_noop ⟨1, 2, ⟨none, some 0, 5, [1, 2, 3], 9⟩⟩
    1 (1 / 10) (.err false) (.err false)).2.2 ⟨5, [1, 2, 3], 9⟩
    ⟨none, some 0, 5, [1, 2, 3], 9⟩ 0 hread

/-- Counterexample to C1 as stated: with all three anchors enabled
(`obs4 = 2`, `obs7 = 15`, `obs10 = 20`) and observed input `x = 16 > obs7`,
the claim predicts the high-segment linear map through `(obs7, 7)` and
`(obs10, 10)`, i.e. 38/5; the code first clamps the raw reading into
`[-1, 15]`, compares the clamped value 15 against `obs7 = 15`, takes the low
segment and returns 7. -/
theorem claim_C1_counterexample :
    (16 : ℚ) > (⟨2, 15, 20⟩ : RobotankPH.Driver).obs7
    ∧ RobotankPH.Driver.applyCalibration ⟨2, 15, 20⟩ 16 = 7
    ∧ (RobotankPH.clampPH
        (RobotankPH.linearMapDbg 16 (⟨2, 15, 20⟩ : RobotankPH.Driver).obs7
          (⟨2, 15, 20⟩ : RobotankPH.Driver).obs10
          RobotankPH.truePH7 RobotankPH.truePH10).y 0 14).1 = 38 / 5
    ∧ (7 : ℚ) ≠ 38 / 5 := by
  refine ⟨by norm_num, ?_, ?_, by norm_num⟩
  · norm_num [RobotankPH.Driver.applyCalibration, RobotankPH.Driver.enabledAnchors,
      RobotankPH.preClampRaw, RobotankPH.calibrateWith, RobotankPH.linearMapDbg,
      RobotankPH.clampPH, RobotankPH.truePH4, RobotankPH.truePH7, RobotankPH.truePH10]
  · norm_num [RobotankPH.linearMapDbg, RobotankPH.clampPH,
      RobotankPH.truePH7, RobotankPH.truePH10]

/-- Claim C1 (amended): in the 3-point pH calibration (anchors for true pH
4, 7, 10 all enabled, sorted by true value ascending), the segment is chosen
solely by comparing the pre-clamped observed input (the raw reading safety-
clamped into `[-1, 15]`) against the observed value of the middle anchor: at
or below `obs7` the output is the linear map through `(obs4, 4)` and
`(obs7, 7)`, otherwise through `(obs7, 7)` and `(obs10, 10)`, in both cases
clamped to the pH output range `[0, 14]`. -/
theorem claim_C1_three_point_segment (d : RobotankPH.Driver) (x : ℚ)
    (h4 : d.obs4 ≠ -1) (h7 : d.obs7 ≠ -1) (h10 : d.obs10 ≠ -1) :
    d.applyCalibration x =
      if RobotankPH.preClampRaw x ≤ d.obs7 then
        (RobotankPH.clampPH
          (RobotankPH.linearMapDbg (RobotankPH.preClampRaw x) d.obs4 d.obs7
            RobotankPH.truePH4 RobotankPH.truePH7).y 0 14).1
      else
        (RobotankPH.clampPH
          (RobotankPH.linearMapDbg (RobotankPH.preClampRaw x) d.obs7 d.obs10
            RobotankPH.truePH7 RobotankPH.truePH10).y 0 14).1 := by
  unfold RobotankPH.Driver.applyCalibration RobotankPH.Driver.enabledAnchors
  rw [if_pos h4, if_pos h7, if_pos h10]
  rfl

/-- Witness for C1 (amended) at the spec's example anchors
(`obs4 = 180` is impossible for board pH units, so plain pH-unit anchors
`obs4 = 4.2`, `obs7 = 7.1`, `obs10 = 9.9` are used) and input 5. -/
theorem claim_C1_three_point_segment_witness :
    RobotankPH.Driver.applyCalibration ⟨21 / 5, 71 / 10, 99 / 10⟩ 5 =
      if RobotankPH.preClampRaw 5 ≤ (71 : ℚ) / 10 then
        (RobotankPH.clampPH
          (RobotankPH.linearMapDbg (RobotankPH.preClampRaw 5) (21 / 5) (71 / 10)
            RobotankPH.truePH4 RobotankPH.truePH7).y 0 14).1
      else
        (RobotankPH.clampPH
          (RobotankPH.linearMapDbg (RobotankPH.preClampRaw 5) (71 / 10) (99 / 10)
            RobotankPH.truePH7 RobotankPH.truePH10).y 0 14).1 :=
  claim_C1_three_point_segment ⟨21 / 5, 71 / 10, 99 / 10⟩ 5
    (by norm_num) (by norm_num) (by norm_num)

namespace RobotankPH

/-- `clampPH` keeps its output inside `[lo, hi]` whenever `lo ≤ hi`. -/
lemma clampPH_mem (v lo hi : ℚ) (h : lo ≤ hi) :
    lo ≤ (clampPH v lo hi).1 ∧ (clampPH v lo hi).1 ≤ hi := by
  unfold clampPH
  split_ifs with h1 h2
  · exact ⟨le_refl lo, h⟩
  · exact ⟨h, le_refl hi⟩
  · exact ⟨not_lt.mp h1, not_lt.mp h2⟩

/-- `clampPH` raises its flag exactly when the value left the range. -/
lemma clampPH_flag (v lo hi : ℚ) : (clampPH v lo hi).2 = true ↔ v < lo ∨ hi < v := by
  unfold clampPH
  split_ifs with h1 h2
  · simp [h1]
  · simp [h2]
  · simp [h1, h2, not_lt.mp h1, not_lt.mp h2]

/-- With at least one enabled anchor, every `calibrateWith` result is a
`clampPH _ 0 14` output, hence inside `[0, 14]`. -/
lemma calibrateWith_mem (as : List Anchor) (raw : ℚ) (hne : as ≠ []) :
    0 ≤ calibrateWith as raw ∧ calibrateWith as raw ≤ 14 := by
  match as with
  | [] => exact absurd rfl hne
  | [a] => exact clampPH_mem _ 0 14 (by norm_num)
  | [a, b] => exact clampPH_mem _ 0 14 (by norm_num)
  | a0 :: a1 :: a2 :: rest =>
    show 0 ≤ calibrateWith (a0 :: a1 :: a2 :: rest) raw ∧ _
    rw [calibrateWith]
    split_ifs <;> exact clampPH_mem _ 0 14 (by norm_num)

/-- The pre-calibration safety clamp lands in `[-1, 15]`. -/
lemma preClampRaw_mem (raw : ℚ) : -1 ≤ preClampRaw raw ∧ preClampRaw raw ≤ 15 := by
  unfold preClampRaw
  simp only []
  split_ifs <;> constructor <;> linarith

end RobotankPH

/-- Counterexample to C4 as stated: with zero enabled anchors, the Robo-Tank
pH calibration returns the raw reading subject only to the `[-1, 15]` safety
clamp — a raw reading of 15 is reported as 15, outside `[0, 14]`. -/
theorem claim_C4_counterexample :
    RobotankPH.Driver.applyCalibration ⟨-1, -1, -1⟩ 15 = 15 ∧ ¬((15 : ℚ) ≤ 14) := by
  constructor
  · norm_num [RobotankPH.Driver.applyCalibration, RobotankPH.Driver.enabledAnchors,
      RobotankPH.preClampRaw, RobotankPH.calibrateWith]
  · norm_num

/-- Claim C4 (amended): whenever at least one calibration anchor is enabled,
the Robo-Tank pH value reported by Value, Measure and Snapshot (all equal to
`applyCalibration`) lies in `[0, 14]`; with zero anchors it is only subject
to the raw safety clamp, so it lies in `[-1, 15]`.  Clamping is recorded: the
`clampPH` flag is raised exactly when the unclamped value was outside the
range (surfaced in the driver's debug diagnostics).  The AliExpress pH
Value/Measure output is soft-clamped into `[0, 14]`, but its Snapshot value
is not clamped (it reports exactly 15 for an electrode reading of
-473.28 mV on an uncalibrated driver). -/
theorem claim_C4_ph_output_range (d : RobotankPH.Driver) (raw v : ℚ)
    (a : AliPH.Driver) (mv : ℚ) :
    (d.enabledAnchors ≠ [] →
      0 ≤ d.applyCalibration raw ∧ d.applyCalibration raw ≤ 14)
    ∧ (d.enabledAnchors = [] →
      -1 ≤ d.applyCalibration raw ∧ d.applyCalibration raw ≤ 15)
    ∧ ((RobotankPH.clampPH v 0 14).2 = true ↔ v < 0 ∨ 14 < v)
    ∧ (0 ≤ a.pinValue mv ∧ a.pinValue mv ≤ 14)
    ∧ AliPH.Driver.snapshotValue ⟨5 / 2, 0, 0, 0, 0, false, 25, 25, none⟩
        (-47328 / 100) = 15 := by
  refine ⟨?_, ?_, RobotankPH.clampPH_flag v 0 14, ?_, ?_⟩
  · intro hne
    exact RobotankPH.calibrateWith_mem d.enabledAnchors (RobotankPH.preClampRaw raw) hne
  · intro hnil
    unfold RobotankPH.Driver.applyCalibration
    rw [hnil]
    exact RobotankPH.preClampRaw_mem raw
  · unfold AliPH.Driver.pinValue AliPH.valueClamp
    simp only []
    split_ifs <;> constructor <;> linarith
  · norm_num [AliPH.Driver.snapshotValue, AliPH.Driver.mvToPH, AliPH.Driver.slopeAtTemp,
      AliPH.Driver.slope25C, AliPH.idealSlope25C]

/-- Witness for C4 (amended) with a single enabled anchor and an
out-of-range raw reading. -/
theorem claim_C4_ph_output_range_witness :
    0 ≤ RobotankPH.Driver.applyCalibration ⟨-1, 8, -1⟩ 15 ∧
      RobotankPH.Driver.applyCalibration ⟨-1, 8, -1⟩ 15 ≤ 14 :=
  (claim_C4_ph_output_range ⟨-1, 8, -1⟩ 15 0 ⟨5 / 2, 0, 0, 0, 0, false, 25, 25, none⟩ 0).1
    (by norm_num [RobotankPH.Driver.enabledAnchors])


/-- Counterexample to C3 as stated: the AliExpress pH driver keeps applying
temperature compensation on a stale temperature.  With compensation enabled,
an injected temperature of 30C at time 0 and a read at time 1000s (far past
the 2-minute threshold), the reported pH differs from the pre-compensation
value (the same driver with compensation disabled): 48404/6063 versus 8. -/
theorem claim_C3_counterexample :
    (1000 : ℚ) - 0 > 120
    ∧ (⟨5 / 2, 0, 0, 0, 0, true, 25, 30, some 0⟩ : AliPH.Driver).doTempComp = true
    ∧ (AliPH.Driver.mvToPH ⟨5 / 2, 0, 0, 0, 0, true, 25, 30, some 0⟩ (-5916 / 100)).1 ≠
        (AliPH.Driver.mvToPH ⟨5 / 2, 0, 0, 0, 0, false, 25, 30, some 0⟩ (-5916 / 100)).1 := by
  refine ⟨by norm_num, rfl, ?_⟩
  norm_num [AliPH.Driver.mvToPH, AliPH.Driver.slopeAtTemp, AliPH.Driver.slope25C,
    AliPH.idealSlope25C, AliPH.refTempK25C]

/-- Claim C3 (amended): for the conductivity driver, temperature compensation
is a no-op whenever the temperature state is invalid, the injection time is
the zero time, or the most recent injection is older than the 2-minute
staleness threshold — and in the latter two cases the temperature state is
downgraded to invalid.  For the AliExpress pH driver, compensation is a no-op
exactly when disabled by configuration (then the reported value uses the
unscaled 25C slope and is independent of the injected temperature); with
compensation enabled and the stored temperature still at the 25C reference
(the never-injected initial state) the Nernst scaling factor is 1, so the
value equals the uncompensated one; a stale injection, however, keeps being
compensated (see the counterexample). -/
theorem claim_C3_compensation_noop (dc : RobotankCond.Driver) (now us t : ℚ)
    (a : AliPH.Driver) (mv : ℚ) :
    (dc.tempValid = false → dc.tempCompToRef now us = (us, dc))
    ∧ (dc.tempValid = true → dc.tempUpdatedAt = none →
        dc.tempCompToRef now us =
          (us, { dc with tempValid := false, tempC := dc.refTempC }))
    ∧ (dc.tempValid = true → dc.tempUpdatedAt = some t →
        now - t > RobotankCond.tempStaleAfter →
        dc.tempCompToRef now us =
          (us, { dc with tempValid := false, tempC := dc.refTempC }))
    ∧ (a.doTempComp = false →
        (a.mvToPH mv).1 = 7 + (mv - a.ph7mV) /
            (if a.slope25C = 0 then -AliPH.idealSlope25C else a.slope25C)
        ∧ ∀ tc : ℚ,
            AliPH.Driver.mvToPH { a with tempC := tc } mv = a.mvToPH mv)
    ∧ (a.doTempComp = true → a.tempC = 25 →
        (a.mvToPH mv).1 = 7 + (mv - a.ph7mV) /
            (if a.slope25C = 0 then -AliPH.idealSlope25C else a.slope25C)) := by
  refine ⟨?_, ?_, ?_, ?_, ?_⟩
  · intro hv
    unfold RobotankCond.Driver.tempCompToRef
    rw [hv]
    simp
  · intro hv hz
    unfold RobotankCond.Driver.tempCompToRef
    rw [hv, hz]
    simp
  · intro hv hs hstale
    unfold RobotankCond.Driver.tempCompToRef
    rw [hv, hs]
    simp [hstale]
  · intro hoff
    constructor
    · unfold AliPH.Driver.mvToPH AliPH.Driver.slopeAtTemp
      rw [hoff]
      simp
    · intro tc
      unfold AliPH.Driver.mvToPH AliPH.Driver.slopeAtTemp AliPH.Driver.slope25C
      simp [hoff]
  · intro hon h25
    unfold AliPH.Driver.mvToPH AliPH.Driver.slopeAtTemp AliPH.refTempK25C
    rw [hon, h25]
    norm_num

/-- Witness for C3 (amended) on the factory-initial conductivity state (no
injection yet, temperature invalid): compensation passes 500µS through
unchanged. -/
theorem claim_C3_compensation_noop_witness :
    RobotankCond.Driver.tempCompToRef (RobotankCond.initialDriver 1000 20 25) 0 500 =
      (500, RobotankCond.initialDriver 1000 20 25) :=
  (claim_C3_compensation_noop (RobotankCond.initialDriver 1000 20 25) 0 500 0
    ⟨5 / 2, 0, 0, 0, 0, false, 25, 25, none⟩ 0).1 rfl

/-- Counterexample to C5 as stated: the AliExpress pH driver also receives
temperature injections (cited `SetTemperatureC`), but it stores the negative
sentinel verbatim instead of marking the temperature invalid and substituting
the reference temperature: after `SetTemperatureC(-1)` the stored temperature
is -1, not the 25C reference, and Nernst compensation is still applied with
it. -/
theorem claim_C5_counterexample :
    (AliPH.Driver.setTemperatureC ⟨5 / 2, 0, 0, 0, 0, true, 25, 25, none⟩ 0 (-1)).tempC = -1
    ∧ (-1 : ℚ) < 0
    ∧ (⟨5 / 2, 0, 0, 0, 0, true, 25, 25, none⟩ : AliPH.Driver).refTempC = 25
    ∧ (AliPH.Driver.setTemperatureC ⟨5 / 2, 0, 0, 0, 0, true, 25, 25, none⟩ 0 (-1)).tempC ≠
        (⟨5 / 2, 0, 0, 0, 0, true, 25, 25, none⟩ : AliPH.Driver).refTempC
    ∧ ((AliPH.Driver.setTemperatureC ⟨5 / 2, 0, 0, 0, 0, true, 25, 25, none⟩ 0
        (-1)).slopeAtTemp (-AliPH.idealSlope25C)).2.1 = true := by
  refine ⟨rfl, by norm_num, rfl, by norm_num [AliPH.Driver.setTemperatureC], ?_⟩
  norm_num [AliPH.Driver.setTemperatureC, AliPH.Driver.slopeAtTemp]

/-- Claim C5 (amended): the conductivity driver is the one holding a full
TemperatureState (`tempC`, `tempUpdatedAt`, `tempValid`), and its invariant
holds after every operation: in the factory-initial state (no injection) the
temperature is invalid; `SetTemperatureC` with the negative sentinel marks it
invalid and stores the reference temperature; a non-negative injection marks
it valid; and a compensation request that observes an injection older than
the 2-minute threshold leaves the state invalid.  The AliExpress pH driver
keeps no validity flag and stores injected values (sentinel included)
verbatim (see the counterexample). -/
theorem claim_C5_temperature_state_invariant (f s r now t us : ℚ)
    (d : RobotankCond.Driver) :
    ((RobotankCond.initialDriver f s r).tempValid = false
      ∧ (RobotankCond.initialDriver f s r).tempUpdatedAt = none)
    ∧ (t < 0 → d.setTemperatureC now t =
        { d with tempUpdatedAt := some now, tempValid := false, tempC := d.refTempC })
    ∧ (0 ≤ t → d.setTemperatureC now t =
        { d with tempUpdatedAt := some now, tempValid := true, tempC := t })
    ∧ (∀ u, d.tempUpdatedAt = some u → now - u > RobotankCond.tempStaleAfter →
        (d.tempCompToRef now us).2.tempValid = false) := by
  refine ⟨⟨rfl, rfl⟩, ?_, ?_, ?_⟩
  · intro hneg
    unfold RobotankCond.Driver.setTemperatureC
    rw [if_pos hneg]
  · intro hpos
    unfold RobotankCond.Driver.setTemperatureC
    rw [if_neg (not_lt.mpr hpos)]
  · intro u hu hstale
    unfold RobotankCond.Driver.tempCompToRef
    cases hv : d.tempValid with
    | false => simp [hv]
    | true =>
      rw [hu]
      simp [hstale, hv]

/-- Witness for C5 (amended): a sentinel injection at time 3 on a previously
valid state stores the 25C reference and invalidates the temperature. -/
theorem claim_C5_temperature_state_invariant_witness :
    RobotankCond.Driver.setTemperatureC ⟨1000, 20, 53000, 3 / 2000, 25, 28, some 1, true⟩
        3 (-1) =
      ⟨1000, 20, 53000, 3 / 2000, 25, 25, some 3, false⟩ :=
  (claim_C5_temperature_state_invariant 1000 20 25 3 (-1) 0
    ⟨1000, 20, 53000, 3 / 2000, 25, 28, some 1, true⟩).2.1 (by norm_num)

namespace ADS1115

/-- If the OS bit is never observed set and some poll instant lies past the
deadline, the poll loop ends in the timeout error having only ever read the
config register. -/
lemma pollLoop_timeout (deadline : ℚ) (events : List PollEvent)
    (hready : ∀ e ∈ events, e.cfg &&& configOsSingle = 0)
    (hto : ∃ e ∈ events, e.now > deadline) :
    (pollLoop deadline events).1 = .error "ads1115: conversion timeout"
    ∧ ∀ op ∈ (pollLoop deadline events).2, op = .readReg regConfig := by
  induction events with
  | nil =>
    obtain ⟨e, he, _⟩ := hto
    exact absurd he (List.not_mem_nil e)
  | cons e rest ih =>
    have hbit : e.cfg &&& configOsSingle = 0 := hready e (List.mem_cons_self e rest)
    rw [pollLoop]
    rw [if_neg (by simp [hbit])]
    by_cases hnow : e.now > deadline
    · rw [if_pos hnow]
      exact ⟨rfl, by intro op hop; simpa using hop⟩
    · rw [if_neg hnow]
      have hto' : ∃ e' ∈ rest, e'.now > deadline := by
        obtain ⟨e', he', hgt⟩ := hto
        rcases List.mem_cons.mp he' with heq | hmem
        · exact absurd (heq ▸ hgt) hnow
        · exact ⟨e', hmem, hgt⟩
      have hready' : ∀ e' ∈ rest, e'.cfg &&& configOsSingle = 0 :=
        fun e' he' => hready e' (List.mem_cons_of_mem e he')
      obtain ⟨ih1, ih2⟩ := ih hready' hto'
      cases hpl : pollLoop deadline rest with
      | mk r ops =>
        rw [hpl] at ih1 ih2
        simp only [hpl]
        refine ⟨ih1, ?_⟩
        intro op hop
        rcases List.mem_cons.mp hop with heq | hmem
        · exact heq
        · exact ih2 op hmem

end ADS1115

/-- Claim C7: a conversion is started by one write of the 16-bit config
register; the same register is then polled, and if the ready (OS) bit is
never observed set before the deadline passes, the acquisition returns the
timeout error, the conversion result register is never read (no partial or
garbage reading), and the conversion is not retried (exactly one config
write is issued). -/
theorem claim_C7_conversion_timeout (config : ℕ) (deadline : ℚ)
    (events : List ADS1115.PollEvent) (convB0 convB1 : ℕ)
    (hready : ∀ e ∈ events, e.cfg &&& ADS1115.configOsSingle = 0)
    (hto : ∃ e ∈ events, e.now > deadline) :
    (ADS1115.performConversion config deadline events convB0 convB1).1 =
      .error "ads1115: conversion timeout"
    ∧ (∀ op ∈ (ADS1115.performConversion config deadline events convB0 convB1).2,
        op ≠ .readReg ADS1115.regConversion)
    ∧ (ADS1115.performConversion config deadline events convB0 convB1).2.countP
        (fun op => op.isConfigWrite) = 1 := by
  obtain ⟨h1, h2⟩ := ADS1115.pollLoop_timeout deadline events hready hto
  unfold ADS1115.performConversion
  cases hpl : ADS1115.pollLoop deadline events with
  | mk r ops =>
    rw [hpl] at h1 h2
    cases r with
    | ok u => exact absurd h1 (by simp)
    | error e =>
      have he : e = "ads1115: conversion timeout" := Except.error.inj h1
      subst he
      simp only []
      refine ⟨by trivial, ?_, ?_⟩
      · intro op hop
        rcases List.mem_cons.mp hop with heq | hmem
        · subst heq
          simp [ADS1115.BusOp.writeReg.injEq]
        · rw [h2 op hmem]
          simp [ADS1115.regConfig, ADS1115.regConversion]
      · rw [List.countP_cons]
        have hz : ops.countP (fun op => op.isConfigWrite) = 0 := by
          rw [List.countP_eq_zero]
          intro op hmem
          rw [h2 op hmem]
          simp [ADS1115.BusOp.isConfigWrite]
        rw [hz]
        simp [ADS1115.BusOp.isConfigWrite]

/-- Witness for C7: a single poll response with the OS bit clear observed
past the deadline yields the timeout error with one config write. -/
theorem claim_C7_conversion_timeout_witness :
    (ADS1115.performConversion 33155 0 [⟨0, 1⟩] 0 0).1 =
      .error "ads1115: conversion timeout"
    ∧ (ADS1115.performConversion 33155 0 [⟨0, 1⟩] 0 0).2.countP
        (fun op => op.isConfigWrite) = 1 := by
  have h := claim_C7_conversion_timeout 33155 0 [⟨0, 1⟩] 0 0
    (by intro e he; simp at he; rw [he]; decide) (⟨⟨0, 1⟩, by simp, by norm_num⟩)
  exact ⟨h.1, h.2.2⟩
